import Mathlib

/-!
# Verification of the E-Commerce storefront client

A shallow embedding, in Lean 4, of the logic core of the `Va16hav07/E-Commerce`
front-end: the reducer-driven cart store (`src/context/CartContext.tsx`), the
role-gated order-status lookup tables (rider and admin dashboards), the
endpoint-fallback API client (`src/utils/dataProvider.ts`), the local-storage
persistence of the cart, the featured-products fallback
(`productAPI.getFeaturedProducts`), and the external-identity token handler
(`AuthContext.handleAuthToken`).

TypeScript numbers that the claims treat as integers (quantities, prices,
ratings, stock) are modelled as `Int`.  Stateful browser APIs (localStorage,
sessionStorage, fetch) are modelled by explicit state passing; fallible
operations return `Except`/`Option`.
-/

namespace ECommerce

/-! ## Data model (`src/types/index.ts`) -/

inductive UserRole where
  | CUSTOMER
  | ADMIN
  | RIDER
deriving DecidableEq, Repr

structure User where
  id : String
  name : String
  email : String
  role : UserRole
  phone : Option String := none
  photo : Option String := none
  createdAt : Option String := none
deriving DecidableEq, Repr

structure ProductVariant where
  color : String
  size : String
  price : Int
  stock : Int
deriving DecidableEq, Repr

structure Product where
  id : String
  name : String
  category : String
  description : String
  basePrice : Int
  imageUrl : String
  variants : List ProductVariant
  rating : Int
deriving DecidableEq, Repr

inductive OrderStatus where
  | PAID
  | SHIPPED
  | IN_TRANSIT
  | DELIVERED
  | PLACED
  | ON_THE_WAY
  | NOT_DELIVERED
deriving DecidableEq, Repr

/-- Simplified status enum local to the simplified admin dashboard
(`enum SimplifiedOrderStatus` in the admin dashboard source). -/
inductive SimplifiedOrderStatus where
  | PAID
  | SHIPPED
  | DELIVERED
  | NOT_DELIVERED
deriving DecidableEq, Repr

/-- The string value of an `OrderStatus` member (TypeScript string enum). -/
def OrderStatus.value : OrderStatus → String
  | .PAID => "PAID"
  | .SHIPPED => "SHIPPED"
  | .IN_TRANSIT => "IN_TRANSIT"
  | .DELIVERED => "DELIVERED"
  | .PLACED => "PLACED"
  | .ON_THE_WAY => "ON_THE_WAY"
  | .NOT_DELIVERED => "NOT_DELIVERED"

/-- The string value of a `SimplifiedOrderStatus` member. -/
def SimplifiedOrderStatus.value : SimplifiedOrderStatus → String
  | .PAID => "PAID"
  | .SHIPPED => "SHIPPED"
  | .DELIVERED => "DELIVERED"
  | .NOT_DELIVERED => "NOT_DELIVERED"

/-! ## Cart store (`src/context/CartContext.tsx`) -/

structure CartItem where
  product : Product
  selectedColor : String
  selectedSize : String
  quantity : Int
deriving DecidableEq, Repr

structure CartState where
  items : List CartItem
deriving DecidableEq, Repr

/-- `const initialState: CartState = { items: [] }`. -/
def initialState : CartState := { items := [] }

/-- The line-identity test used throughout `cartReducer`:
`item.product.id === productId && item.selectedColor === color &&
item.selectedSize === size`. -/
def itemMatches (item : CartItem) (productId color size : String) : Bool :=
  item.product.id == productId && item.selectedColor == color &&
    item.selectedSize == size

/-- `ADD_TO_CART`: `findIndex` of the first line matching the payload's
(productId, color, size); if found, that line's quantity is incremented in
place by the payload quantity; otherwise the payload is appended
(`[...items, action.payload]`).  Updating the first match and leaving the
rest untouched is expressed recursively. -/
def addItemsAux : List CartItem → CartItem → List CartItem
  | [], payload => [payload]
  | item :: rest, payload =>
    if itemMatches item payload.product.id payload.selectedColor
        payload.selectedSize then
      { item with quantity := item.quantity + payload.quantity } :: rest
    else
      item :: addItemsAux rest payload

def addToCart (state : CartState) (payload : CartItem) : CartState :=
  { state with items := addItemsAux state.items payload }

/-- `REMOVE_FROM_CART`: keep every line that does not match the triple. -/
def removeFromCart (state : CartState) (productId color size : String) :
    CartState :=
  { state with
    items := state.items.filter
      (fun item => !(itemMatches item productId color size)) }

/-- `UPDATE_QUANTITY`: `quantity <= 0` filters the line out exactly as
`REMOVE_FROM_CART`; otherwise every matching line's quantity is replaced. -/
def updateQuantity (state : CartState) (productId color size : String)
    (quantity : Int) : CartState :=
  if quantity ≤ 0 then
    { state with
      items := state.items.filter
        (fun item => !(itemMatches item productId color size)) }
  else
    { state with
      items := state.items.map (fun item =>
        if itemMatches item productId color size then
          { item with quantity := quantity }
        else item) }

/-- `CLEAR_CART`. -/
def clearCart (state : CartState) : CartState :=
  { state with items := [] }

inductive CartAction where
  | ADD_TO_CART (payload : CartItem)
  | REMOVE_FROM_CART (productId color size : String)
  | UPDATE_QUANTITY (productId color size : String) (quantity : Int)
  | CLEAR_CART
deriving DecidableEq, Repr

/-- `cartReducer(state, action)`. -/
def cartReducer (state : CartState) : CartAction → CartState
  | .ADD_TO_CART payload => addToCart state payload
  | .REMOVE_FROM_CART productId color size =>
      removeFromCart state productId color size
  | .UPDATE_QUANTITY productId color size quantity =>
      updateQuantity state productId color size quantity
  | .CLEAR_CART => clearCart state

/-- Dispatching a sequence of actions in order. -/
def runActions (state : CartState) (actions : List CartAction) : CartState :=
  actions.foldl cartReducer state

/-- The price used for one line in `totalAmount`: the first variant whose
color and size match the selection, else the product's base price. -/
def linePrice (item : CartItem) : Int :=
  match item.product.variants.find?
      (fun v => v.color == item.selectedColor && v.size == item.selectedSize)
    with
  | some v => v.price
  | none => item.product.basePrice

/-- `totalAmount`: `items.reduce((total, item) => total + price * qty, 0)`. -/
def totalAmount (state : CartState) : Int :=
  state.items.foldl (fun total item => total + linePrice item * item.quantity) 0

/-- `totalItems`: `items.reduce((count, item) => count + item.quantity, 0)`. -/
def totalItems (state : CartState) : Int :=
  state.items.foldl (fun count item => count + item.quantity) 0

/-! Helpers used to state the cart claims: the number of lines with a given
(productId, color, size) triple, and the total quantity carried by them. -/

def countTriple (items : List CartItem) (p c s : String) : Nat :=
  (items.filter (fun item => itemMatches item p c s)).length

def qtyTriple (items : List CartItem) (p c s : String) : Int :=
  ((items.filter (fun item => itemMatches item p c s)).map CartItem.quantity).sum

/-! ## Order-status lookup tables (rider and admin dashboards) -/

/-- `getAllowedStatusesForRider` in the rider dashboard. -/
def getAllowedStatusesForRider : OrderStatus → List OrderStatus
  | .SHIPPED => [.DELIVERED, .NOT_DELIVERED]
  | _ => []

/-- `getAllowedStatusesForAdmin` in the admin dashboard that operates on the
full `OrderStatus` enum. -/
def getAllowedStatusesForAdminFull : OrderStatus → List OrderStatus
  | .PAID => [.SHIPPED]
  | .SHIPPED => [.IN_TRANSIT]
  | _ => []

/-- `getAllowedStatusesForAdmin` in the simplified admin dashboard: it takes
the current status as a string and switches on `SimplifiedOrderStatus`
values; `DELIVERED` and `NOT_DELIVERED` are explicit terminal cases. -/
def getAllowedStatusesForAdmin (currentStatus : String) :
    List SimplifiedOrderStatus :=
  if currentStatus == SimplifiedOrderStatus.PAID.value then
    [SimplifiedOrderStatus.SHIPPED]
  else if currentStatus == SimplifiedOrderStatus.SHIPPED.value then
    [SimplifiedOrderStatus.DELIVERED, SimplifiedOrderStatus.NOT_DELIVERED]
  else if currentStatus == SimplifiedOrderStatus.DELIVERED.value ||
      currentStatus == SimplifiedOrderStatus.NOT_DELIVERED.value then
    []
  else
    []

/-- The `allowedNextStatuses(currentStatus, role)` lookup as the UI realises
it: riders use the rider dashboard's table, admins the simplified admin
dashboard's table, and customers have no status-change UI at all.  Results
are given by the enum members' string values so the two tables can be
compared. -/
def allowedNextStatuses (currentStatus : OrderStatus) : UserRole → List String
  | .RIDER => (getAllowedStatusesForRider currentStatus).map OrderStatus.value
  | .ADMIN =>
      (getAllowedStatusesForAdmin currentStatus.value).map
        SimplifiedOrderStatus.value
  | .CUSTOMER => []

/-! ## JSON values and the local persistence of the cart -/

/-- JSON values, the common currency of `JSON.parse`/`JSON.stringify` and of
parsed HTTP response bodies. -/
inductive Json where
  | null
  | bool (b : Bool)
  | num (n : Int)
  | str (s : String)
  | arr (elements : List Json)
  | obj (fields : List (String × Json))

/-- Property access `j[key]` on a parsed value: defined only on objects. -/
def Json.getField (j : Json) (key : String) : Option Json :=
  match j with
  | .obj fields => (fields.find? (fun f => f.1 == key)).map (fun f => f.2)
  | _ => none

def Json.asString : Json → Option String
  | .str s => some s
  | _ => none

def Json.asInt : Json → Option Int
  | .num n => some n
  | _ => none

def Json.asArr : Json → Option (List Json)
  | .arr elements => some elements
  | _ => none

/-- The JSON object `JSON.stringify` produces for a `ProductVariant`. -/
def encodeVariant (v : ProductVariant) : Json :=
  .obj [("color", .str v.color), ("size", .str v.size),
        ("price", .num v.price), ("stock", .num v.stock)]

/-- The JSON object `JSON.stringify` produces for a `Product`. -/
def encodeProduct (p : Product) : Json :=
  .obj [("id", .str p.id), ("name", .str p.name),
        ("category", .str p.category), ("description", .str p.description),
        ("basePrice", .num p.basePrice), ("imageUrl", .str p.imageUrl),
        ("variants", .arr (p.variants.map encodeVariant)),
        ("rating", .num p.rating)]

/-- The JSON object `JSON.stringify` produces for a `CartItem`. -/
def encodeCartItem (item : CartItem) : Json :=
  .obj [("product", encodeProduct item.product),
        ("selectedColor", .str item.selectedColor),
        ("selectedSize", .str item.selectedSize),
        ("quantity", .num item.quantity)]

/-- The JSON object `JSON.stringify` produces for a `CartState`. -/
def encodeCart (state : CartState) : Json :=
  .obj [("items", .arr (state.items.map encodeCartItem))]

/-- Decoding each element of a parsed array, failing if any element fails. -/
def decodeList {α : Type} (dec : Json → Option α) : List Json → Option (List α)
  | [] => some []
  | j :: rest => do
    let x ← dec j
    let xs ← decodeList dec rest
    pure (x :: xs)

def decodeVariant (j : Json) : Option ProductVariant := do
  let color ← (← j.getField "color").asString
  let size ← (← j.getField "size").asString
  let price ← (← j.getField "price").asInt
  let stock ← (← j.getField "stock").asInt
  pure { color := color, size := size, price := price, stock := stock }

def decodeProduct (j : Json) : Option Product := do
  let id ← (← j.getField "id").asString
  let name ← (← j.getField "name").asString
  let category ← (← j.getField "category").asString
  let description ← (← j.getField "description").asString
  let basePrice ← (← j.getField "basePrice").asInt
  let imageUrl ← (← j.getField "imageUrl").asString
  let variantsJson ← (← j.getField "variants").asArr
  let variants ← decodeList decodeVariant variantsJson
  let rating ← (← j.getField "rating").asInt
  pure { id := id, name := name, category := category,
         description := description, basePrice := basePrice,
         imageUrl := imageUrl, variants := variants, rating := rating }

def decodeCartItem (j : Json) : Option CartItem := do
  let product ← decodeProduct (← j.getField "product")
  let selectedColor ← (← j.getField "selectedColor").asString
  let selectedSize ← (← j.getField "selectedSize").asString
  let quantity ← (← j.getField "quantity").asInt
  pure { product := product, selectedColor := selectedColor,
         selectedSize := selectedSize, quantity := quantity }

def decodeCart (j : Json) : Option CartState := do
  let itemsJson ← (← j.getField "items").asArr
  let items ← decodeList decodeCartItem itemsJson
  pure { items := items }

/-- What the `'cart'` entry of the browser key-value store can hold: nothing,
a string `JSON.parse` rejects, or a string parsing to a JSON value. -/
inductive Stored where
  | absent
  | malformed
  | json (j : Json)

/-- The provider's shape check on the parsed value:
`parsed && typeof parsed === 'object' && Array.isArray(parsed.items)`. -/
def hasCartShape (j : Json) : Bool :=
  match j.getField "items" with
  | some (.arr _) => true
  | _ => false

/-- Saving the cart: `localStorage.setItem('cart', JSON.stringify(cartState))`;
the stored string parses back to the encoding of the state. -/
def saveCart (state : CartState) : Stored :=
  .json (encodeCart state)

/-- Loading the cart on provider start-up.  A missing entry leaves the
initial state; a string `JSON.parse` rejects, or one parsing to a value
without the expected shape, falls back to the initial state and removes the
entry.  A well-shaped value is adopted wholesale (the source casts the
parsed object to `CartState`); `decodeCart` re-types it here, which is exact
on values produced by `saveCart`.  The result is the adopted state together
with what the store holds afterwards. -/
def loadCart : Stored → CartState × Stored
  | .absent => (initialState, .absent)
  | .malformed => (initialState, .absent)
  | .json j =>
    if hasCartShape j then
      match decodeCart j with
      | some c => (c, .json j)
      | none => (initialState, .json j)
    else
      (initialState, .absent)

/-- A stored string the provider treats as corrupted: one `JSON.parse`
rejects, or one parsing to a value that fails the shape check. -/
def corruptStored : Stored → Bool
  | .absent => false
  | .malformed => true
  | .json j => !hasCartShape j

/-! ## API fallback client (`DataProvider.fetchWithFallback`) -/

/-- Outcome of one `fetch` of one endpoint: the promise rejected (transport
error), or an HTTP response arrived with its `ok` flag and, when the body
parses as JSON, the parsed body. -/
inductive FetchResult where
  | transportError
  | httpResponse (ok : Bool) (body : Option Json)

/-- The parsed body an attempt yields, if the attempt succeeds: the response
must be `ok` and `response.json()` must not throw; any other outcome throws
inside the corresponding `try` block. -/
def attemptBody : FetchResult → Option Json
  | .transportError => none
  | .httpResponse ok body => if ok then body else none

/-- `DataProvider.fetchWithFallback(primaryEndpoint, fallbackEndpoint)`:
attempt the primary endpoint; on any failure attempt the fallback endpoint;
on failure again attempt `'/user' + fallbackEndpoint`; if all three fail,
throw.  `env` gives the outcome of fetching each endpoint; the second
component of the result lists the endpoints attempted, in order. -/
def fetchWithFallback (env : String → FetchResult)
    (primaryEndpoint fallbackEndpoint : String) :
    Except String Json × List String :=
  match attemptBody (env primaryEndpoint) with
  | some body => (.ok body, [primaryEndpoint])
  | none =>
    match attemptBody (env fallbackEndpoint) with
    | some body => (.ok body, [primaryEndpoint, fallbackEndpoint])
    | none =>
      let thirdEndpoint := "/user" ++ fallbackEndpoint
      match attemptBody (env thirdEndpoint) with
      | some body =>
          (.ok body, [primaryEndpoint, fallbackEndpoint, thirdEndpoint])
      | none =>
          (.error "All endpoints failed",
           [primaryEndpoint, fallbackEndpoint, thirdEndpoint])

/-! ## Featured-products fallback (`productAPI.getFeaturedProducts`) -/

/-- Outcome of one already-parsed catalog request: a product list, or any
failure (request rejected, non-success status, or an envelope without the
expected `data` array — all of which throw inside the same `try`). -/
inductive ApiOutcome (α : Type) where
  | ok (val : α)
  | fail
deriving DecidableEq, Repr

/-- `allProducts.sort((a, b) => b.rating - a.rating)`: the catalog ordered by
rating, descending. -/
def sortByRatingDesc (products : List Product) : List Product :=
  products.mergeSort (fun a b => decide (b.rating ≤ a.rating))

/-- `productAPI.getFeaturedProducts()`: try the featured endpoint, then its
alternate; on success return the first three products (`slice(0, 3)`).  If
both fail, the outer catch fetches the full catalog, sorts it by rating
descending and returns the first three; if the catalog fetch also fails, the
final catch returns the empty list — the function never throws to its
caller. -/
def getFeaturedProducts
    (featuredApi featuredAlt catalog : ApiOutcome (List Product)) :
    Except String (List Product) :=
  match featuredApi with
  | .ok products => .ok (products.take 3)
  | .fail =>
    match featuredAlt with
    | .ok products => .ok (products.take 3)
    | .fail =>
      match catalog with
      | .ok allProducts => .ok ((sortByRatingDesc allProducts).take 3)
      | .fail => .ok []

/-! ## External-identity token handling (`AuthContext.handleAuthToken`) -/

/-- The auth-relevant browser state: the adopted `currentUser`, the
sessionStorage `'currentUser'` snapshot, the localStorage `'authToken'`
entry, and the provider's error message. -/
structure AuthState where
  currentUser : Option User
  sessionUser : Option User
  authToken : Option String
  errorMsg : Option String
deriving DecidableEq, Repr

/-- `handleAuthToken(token)`: the token is written to localStorage before the
exchange (`authService.handleAuthCallback`); a missing user or an
ADMIN/RIDER role throws, and the catch records the message without undoing
the stored token; only a non-ADMIN, non-RIDER result updates `currentUser`
and the sessionStorage snapshot.  `exchange` gives the user the backend
resolves the token to, if any. -/
def handleAuthToken (exchange : String → Option User) (st : AuthState)
    (token : String) : Except String User × AuthState :=
  let st1 := { st with authToken := some token, errorMsg := none }
  match exchange token with
  | none =>
    let msg := "Failed to get user details from token"
    (.error msg, { st1 with errorMsg := some msg })
  | some user =>
    if user.role == .ADMIN || user.role == .RIDER then
      let msg := "Google login is only available for customers"
      (.error msg, { st1 with errorMsg := some msg })
    else
      (.ok user, { st1 with currentUser := some user, sessionUser := some user })

/-! ## Sample data used by the concrete witnesses -/

def sampleVariant : ProductVariant :=
  { color := "red", size := "M", price := 500, stock := 10 }

def sampleProduct : Product :=
  { id := "p1", name := "Tee", category := "apparel", description := "d",
    basePrice := 400, imageUrl := "img", variants := [sampleVariant],
    rating := 4 }

def sampleItem (q : Int) : CartItem :=
  { product := sampleProduct, selectedColor := "red", selectedSize := "M",
    quantity := q }

/-- Is the quantity argument of an action at least 1?  (Only `ADD_TO_CART`
carries a caller-supplied quantity that the invariant constrains.) -/
def actionQuantityOk : CartAction → Bool
  | .ADD_TO_CART payload => decide (1 ≤ payload.quantity)
  | _ => true

/-- An environment for the fallback client: the primary path always fails
with a non-success status, every other path succeeds. -/
def sampleEnv : String → FetchResult := fun endpoint =>
  if endpoint == "/api/orders" then FetchResult.httpResponse false none
  else FetchResult.httpResponse true (some (Json.str "ok"))

def sampleAdmin : User :=
  { id := "u1", name := "Alice", email := "alice@example.com",
    role := UserRole.ADMIN }

def sampleAuthState : AuthState :=
  { currentUser := none, sessionUser := none, authToken := none,
    errorMsg := none }

/-! ## Cart lemmas -/

theorem itemMatches_set_quantity (item : CartItem) (q : Int) (p c s : String) :
    itemMatches { item with quantity := q } p c s = itemMatches item p c s :=
  rfl

/-- Adding a payload whose triple is (p, c, s) leaves one line for the triple
if there was none, and otherwise as many as before. -/
theorem countTriple_addItemsAux (l : List CartItem) (pl : CartItem) :
    countTriple (addItemsAux l pl) pl.product.id pl.selectedColor
        pl.selectedSize =
      max (countTriple l pl.product.id pl.selectedColor pl.selectedSize) 1 := by
  induction l with
  | nil => simp [addItemsAux, countTriple, itemMatches]
  | cons item rest ih =>
    by_cases h : itemMatches item pl.product.id pl.selectedColor pl.selectedSize
    · simp [addItemsAux, h, countTriple, List.filter_cons,
        itemMatches_set_quantity] at ih ⊢
      try omega
    · simp [addItemsAux, h, countTriple, List.filter_cons] at ih ⊢
      try omega

/-- Adding a payload whose triple is (p, c, s) raises the total quantity held
by lines with that triple by exactly the payload quantity. -/
theorem qtyTriple_addItemsAux (l : List CartItem) (pl : CartItem) :
    qtyTriple (addItemsAux l pl) pl.product.id pl.selectedColor
        pl.selectedSize =
      qtyTriple l pl.product.id pl.selectedColor pl.selectedSize +
        pl.quantity := by
  induction l with
  | nil => simp [addItemsAux, qtyTriple, itemMatches]
  | cons item rest ih =>
    by_cases h : itemMatches item pl.product.id pl.selectedColor pl.selectedSize
    · simp [addItemsAux, h, qtyTriple, List.filter_cons,
        itemMatches_set_quantity] at ih ⊢
      try omega
    · simp [addItemsAux, h, qtyTriple, List.filter_cons] at ih ⊢
      try omega

/-- When no line matches the payload's triple, `ADD_TO_CART` appends. -/
theorem addItemsAux_append_of_no_match (l : List CartItem) (pl : CartItem)
    (h : countTriple l pl.product.id pl.selectedColor pl.selectedSize = 0) :
    addItemsAux l pl = l ++ [pl] := by
  induction l with
  | nil => simp [addItemsAux]
  | cons item rest ih =>
    by_cases hm : itemMatches item pl.product.id pl.selectedColor
        pl.selectedSize
    · simp [countTriple, List.filter_cons, hm] at h
    · simp only [countTriple, List.filter_cons, hm, Bool.false_eq_true,
        if_false] at h
      simp [addItemsAux, hm, ih h]

/-- Folding a sequence of same-triple payloads over `addToCart`. -/
theorem foldl_addToCart_triple (p c s : String) (ps : List CartItem) :
    ∀ st : CartState,
      (∀ pl ∈ ps, pl.product.id = p ∧ pl.selectedColor = c ∧
        pl.selectedSize = s) →
      (ps ≠ [] →
        countTriple (ps.foldl addToCart st).items p c s =
          max (countTriple st.items p c s) 1) ∧
      qtyTriple (ps.foldl addToCart st).items p c s =
        qtyTriple st.items p c s + (ps.map CartItem.quantity).sum := by
  induction ps with
  | nil => intro st _; exact ⟨fun h => absurd rfl h, by simp⟩
  | cons pl ps ih =>
    intro st hall
    obtain ⟨hp, hc, hs⟩ := hall pl (List.mem_cons_self pl ps)
    have hcount := countTriple_addItemsAux st.items pl
    have hqty := qtyTriple_addItemsAux st.items pl
    rw [hp, hc, hs] at hcount hqty
    have ihst := ih (addToCart st pl)
      (fun x hx => hall x (List.mem_cons_of_mem pl hx))
    constructor
    · intro _
      by_cases hps : ps = []
      · subst hps
        simpa [addToCart] using hcount
      · rw [List.foldl_cons, ihst.1 hps]
        simp only [addToCart] at hcount ⊢
        rw [hcount]
        omega
    · rw [List.foldl_cons, ihst.2]
      simp only [addToCart] at hqty ⊢
      rw [hqty]
      simp [add_assoc]

/-- C1: for every cart state holding at most one line for the triple
(p, c, s) and every non-empty sequence of `ADD_TO_CART` payloads all
carrying that triple, the resulting cart holds exactly one line for the
triple, its quantity is the pre-existing quantity plus the sum of the added
quantities, and a payload whose triple matches no existing line is appended
as a new line. -/
theorem addToCart_merges_same_triple (st : CartState) (p c s : String)
    (ps : List CartItem)
    (hwf : countTriple st.items p c s ≤ 1)
    (hne : ps ≠ [])
    (hall : ∀ pl ∈ ps, pl.product.id = p ∧ pl.selectedColor = c ∧
      pl.selectedSize = s) :
    countTriple (ps.foldl addToCart st).items p c s = 1 ∧
    qtyTriple (ps.foldl addToCart st).items p c s =
      qtyTriple st.items p c s + (ps.map CartItem.quantity).sum ∧
    ∀ (t : CartState) (pl : CartItem),
      countTriple t.items pl.product.id pl.selectedColor pl.selectedSize = 0 →
      (addToCart t pl).items = t.items ++ [pl] := by
  obtain ⟨h1, h2⟩ := foldl_addToCart_triple p c s ps st hall
  refine ⟨?_, h2, fun t pl hpl => ?_⟩
  · rw [h1 hne]; omega
  · simpa [addToCart] using addItemsAux_append_of_no_match t.items pl hpl

theorem addToCart_merges_same_triple_witness :
    (countTriple initialState.items "p1" "red" "M" ≤ 1 ∧
      [sampleItem 2, sampleItem 1] ≠ ([] : List CartItem)) ∧
    countTriple
      (([sampleItem 2, sampleItem 1]).foldl addToCart initialState).items
      "p1" "red" "M" = 1 :=
  ⟨⟨by decide, by decide⟩,
   (addToCart_merges_same_triple initialState "p1" "red" "M"
     [sampleItem 2, sampleItem 1] (by decide) (by decide) (by decide)).1⟩

/-- Filtering out the matching lines leaves no line for the triple. -/
theorem countTriple_filter_not (l : List CartItem) (p c s : String) :
    countTriple (l.filter (fun item => !(itemMatches item p c s))) p c s = 0 := by
  induction l with
  | nil => rfl
  | cons item rest ih =>
    by_cases h : itemMatches item p c s <;>
      simp [countTriple, List.filter_cons, h, ih]

/-- C2: on any cart holding a line for (p, c, s), `UPDATE_QUANTITY` with a
quantity at most 0 yields exactly the same state as `REMOVE_FROM_CART` — the
line is gone and the derived totals of the two results agree — while a
positive quantity replaces the line's quantity. -/
theorem updateQuantity_nonpos_is_remove (st : CartState) (p c s : String)
    (q : Int)
    (_hmem : ∃ item ∈ st.items, itemMatches item p c s = true) :
    (q ≤ 0 →
      updateQuantity st p c s q = removeFromCart st p c s ∧
      countTriple (updateQuantity st p c s q).items p c s = 0 ∧
      totalItems (updateQuantity st p c s q) =
        totalItems (removeFromCart st p c s) ∧
      totalAmount (updateQuantity st p c s q) =
        totalAmount (removeFromCart st p c s)) ∧
    (0 < q → ∀ item ∈ (updateQuantity st p c s q).items,
      itemMatches item p c s = true → item.quantity = q) := by
  constructor
  · intro hq
    have hstate : updateQuantity st p c s q = removeFromCart st p c s := by
      simp [updateQuantity, removeFromCart, hq]
    refine ⟨hstate, ?_, by rw [hstate], by rw [hstate]⟩
    rw [hstate]
    exact countTriple_filter_not st.items p c s
  · intro hq item hmem hmatch
    have hq' : ¬(q ≤ 0) := by omega
    simp only [updateQuantity, hq', if_false] at hmem
    rcases List.mem_map.mp hmem with ⟨src, _, rfl⟩
    by_cases h : itemMatches src p c s
    · simp [h]
    · simp [h] at hmatch

theorem updateQuantity_nonpos_is_remove_witness :
    (∃ item ∈ (CartState.mk [sampleItem 2]).items,
      itemMatches item "p1" "red" "M" = true) ∧
    updateQuantity (CartState.mk [sampleItem 2]) "p1" "red" "M" 0 =
      removeFromCart (CartState.mk [sampleItem 2]) "p1" "red" "M" :=
  ⟨by decide,
   ((updateQuantity_nonpos_is_remove (CartState.mk [sampleItem 2])
     "p1" "red" "M" 0 (by decide)).1 (by decide)).1⟩

/-- Folding `acc + f x` from an arbitrary accumulator is the accumulator
plus the sum of the mapped list. -/
theorem foldl_add_eq_sum {α : Type} (f : α → Int) (l : List α) (a : Int) :
    l.foldl (fun acc x => acc + f x) a = a + (l.map f).sum := by
  induction l generalizing a with
  | nil => simp
  | cons x xs ih => simp [ih, add_assoc]

/-- C5: `totalItems` is the sum of the quantities of all lines, and
`totalAmount` is the sum over the lines of the matching variant price (or
the base price when no variant matches) times the quantity; both are pure
functions of the state, so recomputing either without an intervening
mutation yields the same value. -/
theorem totals_are_sums (st : CartState) :
    totalItems st = (st.items.map CartItem.quantity).sum ∧
    totalAmount st =
      (st.items.map (fun item => linePrice item * item.quantity)).sum ∧
    totalItems st = totalItems st ∧
    totalAmount st = totalAmount st :=
  ⟨by simpa [totalItems] using
      foldl_add_eq_sum CartItem.quantity st.items 0,
   by simpa [totalAmount] using
      foldl_add_eq_sum (fun item => linePrice item * item.quantity) st.items 0,
   rfl, rfl⟩

/-- Every line produced by `ADD_TO_CART` keeps quantity at least 1 when the
cart already satisfied the invariant and the payload quantity is at least 1. -/
theorem addItemsAux_quantity_pos (l : List CartItem) (pl : CartItem)
    (hl : ∀ item ∈ l, 1 ≤ item.quantity) (hpl : 1 ≤ pl.quantity) :
    ∀ item ∈ addItemsAux l pl, 1 ≤ item.quantity := by
  induction l with
  | nil => simpa [addItemsAux] using hpl
  | cons it rest ih =>
    intro item hmem
    have hit := hl it (List.mem_cons_self it rest)
    have hrest : ∀ x ∈ rest, 1 ≤ x.quantity :=
      fun x hx => hl x (List.mem_cons_of_mem it hx)
    by_cases h : itemMatches it pl.product.id pl.selectedColor pl.selectedSize
    · simp only [addItemsAux, h, if_true, List.mem_cons] at hmem
      rcases hmem with rfl | hmem
      · simp only []
        omega
      · exact hrest item hmem
    · simp only [addItemsAux, h, Bool.false_eq_true, if_false,
        List.mem_cons] at hmem
      rcases hmem with rfl | hmem
      · exact hit
      · exact ih hrest item hmem

/-- One reducer step preserves the quantity invariant, provided an
`ADD_TO_CART` payload carries quantity at least 1. -/
theorem cartReducer_quantity_pos (st : CartState) (a : CartAction)
    (hst : ∀ item ∈ st.items, 1 ≤ item.quantity)
    (ha : actionQuantityOk a = true) :
    ∀ item ∈ (cartReducer st a).items, 1 ≤ item.quantity := by
  cases a with
  | ADD_TO_CART payload =>
    exact addItemsAux_quantity_pos st.items payload hst
      (by simpa [actionQuantityOk] using ha)
  | REMOVE_FROM_CART p c s =>
    intro item hmem
    exact hst item (List.mem_of_mem_filter hmem)
  | UPDATE_QUANTITY p c s q =>
    intro item hmem
    by_cases hq : q ≤ 0
    · simp only [cartReducer, updateQuantity, hq, if_true] at hmem
      exact hst item (List.mem_of_mem_filter hmem)
    · simp only [cartReducer, updateQuantity, hq, if_false] at hmem
      rcases List.mem_map.mp hmem with ⟨src, hsrc, rfl⟩
      by_cases h : itemMatches src p c s
      · simp only [h, if_true]
        omega
      · simp only [h, Bool.false_eq_true, if_false]
        exact hst src hsrc
  | CLEAR_CART =>
    intro item hmem
    simp [cartReducer, clearCart] at hmem

/-- The invariant is preserved along any action sequence. -/
theorem foldl_cartReducer_quantity_pos (actions : List CartAction) :
    ∀ st : CartState,
      (∀ item ∈ st.items, 1 ≤ item.quantity) →
      (∀ a ∈ actions, actionQuantityOk a = true) →
      ∀ item ∈ (actions.foldl cartReducer st).items, 1 ≤ item.quantity := by
  induction actions with
  | nil => intro st hst _; exact hst
  | cons a rest ih =>
    intro st hst hok
    exact ih (cartReducer st a)
      (cartReducer_quantity_pos st a hst (hok a (List.mem_cons_self a rest)))
      (fun x hx => hok x (List.mem_cons_of_mem a hx))

/-- C6: starting from the empty cart, along any action sequence whose
`ADD_TO_CART` payloads all carry quantity at least 1, every line of every
reachable state has quantity at least 1; and an `UPDATE_QUANTITY` that would
set a quantity at most 0 removes the line rather than storing it. -/
theorem runActions_quantity_pos (actions : List CartAction)
    (h : ∀ a ∈ actions, actionQuantityOk a = true) :
    (∀ item ∈ (runActions initialState actions).items, 1 ≤ item.quantity) ∧
    (∀ (st : CartState) (p c s : String) (q : Int), q ≤ 0 →
      countTriple (updateQuantity st p c s q).items p c s = 0) := by
  constructor
  · exact foldl_cartReducer_quantity_pos actions initialState
      (by simp [initialState]) h
  · intro st p c s q hq
    simp only [updateQuantity, hq, if_true]
    exact countTriple_filter_not st.items p c s

theorem runActions_quantity_pos_witness :
    (∀ a ∈ [CartAction.ADD_TO_CART (sampleItem 2),
        CartAction.UPDATE_QUANTITY "p1" "red" "M" 5],
      actionQuantityOk a = true) ∧
    ∀ item ∈ (runActions initialState
        [CartAction.ADD_TO_CART (sampleItem 2),
         CartAction.UPDATE_QUANTITY "p1" "red" "M" 5]).items,
      1 ≤ item.quantity :=
  ⟨by decide,
   (runActions_quantity_pos
     [CartAction.ADD_TO_CART (sampleItem 2),
      CartAction.UPDATE_QUANTITY "p1" "red" "M" 5] (by decide)).1⟩

/-! ## Order-status lookup theorems -/

/-- C3: `DELIVERED` and `NOT_DELIVERED` (the spec's UNDELIVERED) admit no
next status for any role; a rider may move a `SHIPPED` order to exactly
`DELIVERED` or `NOT_DELIVERED`; an admin may move a `PAID` order to exactly
`SHIPPED`. -/
theorem allowedNextStatuses_table :
    (∀ role : UserRole,
      allowedNextStatuses OrderStatus.DELIVERED role = [] ∧
      allowedNextStatuses OrderStatus.NOT_DELIVERED role = []) ∧
    allowedNextStatuses OrderStatus.SHIPPED UserRole.RIDER =
      ["DELIVERED", "NOT_DELIVERED"] ∧
    allowedNextStatuses OrderStatus.PAID UserRole.ADMIN = ["SHIPPED"] := by
  refine ⟨fun role => ?_, by decide, by decide⟩
  cases role <;> exact ⟨by decide, by decide⟩

/-- C4 counterexample: the admin dashboard that operates on the full
`OrderStatus` enum offers exactly `IN_TRANSIT` — neither `DELIVERED` nor
`NOT_DELIVERED` — for a `SHIPPED` order, so the spec's transition table does
not hold for every admin lookup implementation in the client. -/
theorem adminFull_shipped_counterexample :
    getAllowedStatusesForAdminFull OrderStatus.SHIPPED =
      [OrderStatus.IN_TRANSIT] ∧
    OrderStatus.DELIVERED ∉ getAllowedStatusesForAdminFull OrderStatus.SHIPPED ∧
    OrderStatus.NOT_DELIVERED ∉
      getAllowedStatusesForAdminFull OrderStatus.SHIPPED := by
  decide

/-- C4 (amended): the simplified admin dashboard's lookup — the one whose
statuses match the spec's table — offers exactly `DELIVERED` and
`NOT_DELIVERED` for a `SHIPPED` order, and so does the role-dispatched
lookup for `ADMIN`; the other admin dashboard offers `IN_TRANSIT` instead. -/
theorem adminSimplified_shipped :
    getAllowedStatusesForAdmin OrderStatus.SHIPPED.value =
      [SimplifiedOrderStatus.DELIVERED, SimplifiedOrderStatus.NOT_DELIVERED] ∧
    allowedNextStatuses OrderStatus.SHIPPED UserRole.ADMIN =
      ["DELIVERED", "NOT_DELIVERED"] := by
  decide

/-! ## Persistence round-trip theorems -/

theorem decodeVariant_encode (v : ProductVariant) :
    decodeVariant (encodeVariant v) = some v := rfl

theorem decodeList_variant (l : List ProductVariant) :
    decodeList decodeVariant (l.map encodeVariant) = some l := by
  induction l with
  | nil => rfl
  | cons v vs ih => simp [decodeList, decodeVariant_encode, ih]

theorem decodeProduct_encode (p : Product) :
    decodeProduct (encodeProduct p) = some p := by
  have h : decodeProduct (encodeProduct p) =
      (decodeList decodeVariant (p.variants.map encodeVariant)).bind
        (fun variants => some
          { id := p.id, name := p.name, category := p.category,
            description := p.description, basePrice := p.basePrice,
            imageUrl := p.imageUrl, variants := variants,
            rating := p.rating }) := rfl
  rw [h, decodeList_variant]
  rfl

theorem decodeCartItem_encode (item : CartItem) :
    decodeCartItem (encodeCartItem item) = some item := by
  have h : decodeCartItem (encodeCartItem item) =
      (decodeProduct (encodeProduct item.product)).bind
        (fun product => some
          { product := product, selectedColor := item.selectedColor,
            selectedSize := item.selectedSize,
            quantity := item.quantity }) := rfl
  rw [h, decodeProduct_encode]
  rfl

theorem decodeList_cartItem (l : List CartItem) :
    decodeList decodeCartItem (l.map encodeCartItem) = some l := by
  induction l with
  | nil => rfl
  | cons item rest ih => simp [decodeList, decodeCartItem_encode, ih]

theorem decodeCart_encode (c : CartState) :
    decodeCart (encodeCart c) = some c := by
  have h : decodeCart (encodeCart c) =
      (decodeList decodeCartItem (c.items.map encodeCartItem)).bind
        (fun items => some { items := items }) := rfl
  rw [h, decodeList_cartItem]
  rfl

/-- C7: saving a cart and loading it back yields an equal cart state, and a
stored string that is not valid JSON, or parses to a value without an
`items` array, loads as the empty initial state with the corrupted entry
removed from the store, not as an error. -/
theorem cart_persistence_roundtrip (c : CartState) (st : Stored)
    (hc : corruptStored st = true) :
    loadCart (saveCart c) = (c, saveCart c) ∧
    loadCart st = (initialState, Stored.absent) := by
  constructor
  · have hshape : hasCartShape (encodeCart c) = true := rfl
    simp [saveCart, loadCart, hshape, decodeCart_encode]
  · cases st with
    | absent => simp [corruptStored] at hc
    | malformed => rfl
    | json j =>
      simp only [corruptStored, Bool.not_eq_eq_eq_not, Bool.not_true] at hc
      simp [loadCart, hc]

theorem cart_persistence_roundtrip_witness :
    corruptStored Stored.malformed = true ∧
    loadCart (saveCart (CartState.mk [sampleItem 2])) =
      (CartState.mk [sampleItem 2], saveCart (CartState.mk [sampleItem 2])) ∧
    loadCart Stored.malformed = (initialState, Stored.absent) :=
  ⟨rfl,
   (cart_persistence_roundtrip (CartState.mk [sampleItem 2])
     Stored.malformed rfl).1,
   (cart_persistence_roundtrip (CartState.mk [sampleItem 2])
     Stored.malformed rfl).2⟩

/-! ## Fallback client theorem -/

/-- C8: when the attempt on the primary path fails and the attempt on the
fallback path succeeds, `fetchWithFallback` returns the fallback response's
parsed body, and the attempted paths are exactly the configured primary and
fallback, in order, each once — no third path is reached. -/
theorem fetchWithFallback_fallback_success (env : String → FetchResult)
    (primaryEndpoint fallbackEndpoint : String) (body : Json)
    (hp : attemptBody (env primaryEndpoint) = none)
    (hf : attemptBody (env fallbackEndpoint) = some body) :
    fetchWithFallback env primaryEndpoint fallbackEndpoint =
      (Except.ok body, [primaryEndpoint, fallbackEndpoint]) := by
  simp [fetchWithFallback, hp, hf]

theorem fetchWithFallback_fallback_success_witness :
    (attemptBody (sampleEnv "/api/orders") = none ∧
      attemptBody (sampleEnv "/orders") = some (Json.str "ok")) ∧
    fetchWithFallback sampleEnv "/api/orders" "/orders" =
      (Except.ok (Json.str "ok"), ["/api/orders", "/orders"]) :=
  ⟨⟨rfl, rfl⟩,
   fetchWithFallback_fallback_success sampleEnv "/api/orders" "/orders"
     (Json.str "ok") rfl rfl⟩

/-! ## Featured-products theorems -/

/-- C9 counterexample: with both featured endpoints and the catalog fallback
failing, `getFeaturedProducts` returns the empty list as a normal result —
no error reaches the caller even when the fallback computation fails. -/
theorem getFeaturedProducts_never_errors_counterexample :
    getFeaturedProducts ApiOutcome.fail ApiOutcome.fail ApiOutcome.fail =
      Except.ok ([] : List Product) ∧
    ¬ ∃ msg : String,
      getFeaturedProducts ApiOutcome.fail ApiOutcome.fail ApiOutcome.fail =
        Except.error msg := by
  refine ⟨rfl, ?_⟩
  rintro ⟨msg, h⟩
  simp [getFeaturedProducts] at h

/-- C9 (amended): when every featured-products endpoint fails,
`getFeaturedProducts` surfaces no error and instead returns the full catalog
sorted by rating in descending order, truncated to the top three; when the
catalog fetch also fails it returns the empty list — it never surfaces an
error to the caller under any outcome. -/
theorem getFeaturedProducts_fallback (catalogProducts : List Product) :
    getFeaturedProducts ApiOutcome.fail ApiOutcome.fail
        (ApiOutcome.ok catalogProducts) =
      Except.ok ((sortByRatingDesc catalogProducts).take 3) ∧
    List.Pairwise (fun a b : Product => b.rating ≤ a.rating)
      (sortByRatingDesc catalogProducts) ∧
    (∀ x ∈ sortByRatingDesc catalogProducts, x ∈ catalogProducts) ∧
    getFeaturedProducts ApiOutcome.fail ApiOutcome.fail ApiOutcome.fail =
      Except.ok [] ∧
    (∀ featuredApi featuredAlt catalog : ApiOutcome (List Product),
      ∃ l, getFeaturedProducts featuredApi featuredAlt catalog =
        Except.ok l) := by
  refine ⟨rfl, ?_, ?_, rfl, ?_⟩
  · have h := @List.sorted_mergeSort Product
      (fun a b : Product => decide (b.rating ≤ a.rating))
      (fun a b c hab hbc => by simp at *; omega)
      (fun a b => by simp; omega) catalogProducts
    exact h.imp (fun hab => by simpa using hab)
  · intro x hx
    have h := List.mergeSort_perm catalogProducts
      (fun a b : Product => decide (b.rating ≤ a.rating))
    exact h.mem_iff.mp hx
  · intro featuredApi featuredAlt catalog
    cases featuredApi with
    | ok products => exact ⟨products.take 3, rfl⟩
    | fail =>
      cases featuredAlt with
      | ok products => exact ⟨products.take 3, rfl⟩
      | fail =>
        cases catalog with
        | ok allProducts => exact ⟨(sortByRatingDesc allProducts).take 3, rfl⟩
        | fail => exact ⟨[], rfl⟩

/-! ## External-identity token theorem -/

/-- C10: when the token exchange resolves to an ADMIN or RIDER user,
`handleAuthToken` raises 'Google login is only available for customers',
leaves `currentUser` and the sessionStorage snapshot unchanged, and the
token written to localStorage before the exchange is still stored after the
failure. -/
theorem handleAuthToken_rejects_nonCustomer (exchange : String → Option User)
    (st : AuthState) (token : String) (user : User)
    (hx : exchange token = some user)
    (hrole : user.role = UserRole.ADMIN ∨ user.role = UserRole.RIDER) :
    (handleAuthToken exchange st token).1 =
      Except.error "Google login is only available for customers" ∧
    (handleAuthToken exchange st token).2.currentUser = st.currentUser ∧
    (handleAuthToken exchange st token).2.sessionUser = st.sessionUser ∧
    (handleAuthToken exchange st token).2.authToken = some token := by
  rcases hrole with h | h <;> simp [handleAuthToken, hx, h]

theorem handleAuthToken_rejects_nonCustomer_witness :
    ((fun _ : String => some sampleAdmin) "tok" = some sampleAdmin ∧
      (sampleAdmin.role = UserRole.ADMIN ∨
        sampleAdmin.role = UserRole.RIDER)) ∧
    (handleAuthToken (fun _ => some sampleAdmin) sampleAuthState "tok").1 =
      Except.error "Google login is only available for customers" ∧
    (handleAuthToken (fun _ => some sampleAdmin) sampleAuthState
      "tok").2.authToken = some "tok" :=
  ⟨⟨rfl, Or.inl rfl⟩,
   (handleAuthToken_rejects_nonCustomer (fun _ => some sampleAdmin)
     sampleAuthState "tok" sampleAdmin rfl (Or.inl rfl)).1,
   (handleAuthToken_rejects_nonCustomer (fun _ => some sampleAdmin)
     sampleAuthState "tok" sampleAdmin rfl (Or.inl rfl)).2.2.2⟩

end ECommerce
